import Mathlib

/-!
Verification development for the SysAid → Azure DevOps synchronisation tool.

The development shallowly embeds the two core subsystems:

* the sensitive-data redaction engine of `sensitive_data_detector.py`
  (rule scanning with Python `re.findall` group semantics, case-insensitive
  literal redaction), and
* the per-ticket reconciliation engine of `main.py` / `ado_api.py`
  (lookup by external id, timestamp comparison, create/update payload
  construction, safe parent linking).

Remote HTTP calls are modelled by explicit response values (`Except`-typed
fields of `Env`); a raised `requests` exception is the `.error` case.
Python machine behaviour that the code relies on (dict `.get` defaults,
string/int truthiness, `re` semantics on escaped literals and on patterns
with capture groups) is embedded explicitly and noted at each definition.
-/

set_option maxRecDepth 4096

/-! ## Case-insensitive literal matching and replacement

The redaction code in `sensitive_data_detector.py` (`redact_text`, lines
100-120) calls `re.sub(re.escape(value), "[REDACTED]", redacted,
flags=re.IGNORECASE)`.  Because the pattern is `re.escape`d, the regular
expression matches exactly the literal `value`, case-insensitively; `re.sub`
replaces the non-overlapping occurrences found by a left-to-right scan and
continues scanning after each replaced match.  The functions below implement
exactly that semantics on `List Char`. -/

/-- Case-insensitive character equality (ASCII case folding, which is what
`re.IGNORECASE` performs on the ASCII texts this program handles). -/
def ciEqc (a b : Char) : Bool := a.toLower == b.toLower

/-- Does `v` occur case-insensitively at the very start of `s`? -/
def ciStartsWith : List Char → List Char → Bool
  | [], _ => true
  | _ :: _, [] => false
  | a :: as, b :: bs => ciEqc a b && ciStartsWith as bs

/-- Does `v` occur case-insensitively anywhere in `s` (as a contiguous
substring)? -/
def ciOccurs (v : List Char) : List Char → Bool
  | [] => ciStartsWith v []
  | c :: rest => ciStartsWith v (c :: rest) || ciOccurs v rest

/-- Embedding of `re.sub(re.escape(v), marker, s, flags=re.IGNORECASE)` for a
non-empty literal `v`: scan `s` left to right; whenever `v` matches
case-insensitively at the current position, emit `marker` and resume after the
match, otherwise keep the character.  (`redact_text` only calls this with
non-empty `v`; for `v = []` the guard fails and the text is returned
unchanged.)  `rest.drop (v.length - 1)` is `(c :: rest).drop v.length` for
non-empty `v`. -/
def ciReplaceAllFuel (v marker : List Char) : Nat → List Char → List Char
  | _, [] => []
  | 0, s => s
  | fuel + 1, c :: rest =>
    if !v.isEmpty && ciStartsWith v (c :: rest) then
      marker ++ ciReplaceAllFuel v marker fuel (rest.drop (v.length - 1))
    else
      c :: ciReplaceAllFuel v marker fuel rest

/-- The scan of `ciReplaceAllFuel` consumes at least one character per step,
so `s.length` steps always complete the scan. -/
def ciReplaceAll (v marker s : List Char) : List Char :=
  ciReplaceAllFuel v marker s.length s

/-- The fixed redaction marker of `redact_text`. -/
def redactMarker : String := "[REDACTED]"

/-- Embedding of `SensitiveDataDetector.redact_text` (
`sensitive_data_detector.py` lines 100-120): fold over the findings,
and for each `(label, value)` with truthy (non-empty) `value` replace all
case-insensitive occurrences of the escaped literal with `"[REDACTED]"`.
The `try/except` wrapper is not modelled: the body is total. -/
def redact_text (text : String) (findings : List (String × String)) : String :=
  findings.foldl
    (fun redacted f =>
      if f.2 != "" then
        String.mk (ciReplaceAll f.2.data redactMarker.data redacted.data)
      else redacted)
    text

/-- Redaction as worded by the specification: a finding whose matched literal
is the empty string is discarded before redaction; for every remaining
finding's literal, all case-insensitive occurrences are replaced by the fixed
marker, in findings order. -/
def redactSpec (text : String) (findings : List (String × String)) : String :=
  (findings.filter (fun f => f.2 != "")).foldl
    (fun redacted f =>
      String.mk (ciReplaceAll f.2.data redactMarker.data redacted.data))
    text

/-! ## A small regular-expression engine with Python `re` semantics

`scan_text` (lines 82-94) applies `pattern.findall(text)` for every rule of
the registry.  For a pattern with capture groups, `re.findall` does not return
the full matched substring: with exactly one group it returns the group's
text and with two or more groups a tuple of the groups' texts (an optional
group that did not participate contributes `''`).  The engine below is enough
regular-expression machinery to run the registry rules relevant to the claims:
case-insensitive literals, character classes, greedy `*`-closure of a class,
ordered alternation, option, capture groups and `\b` word boundaries, with
Python's leftmost / first-alternative / greedy-first match priority. -/

/-- Regular-expression abstract syntax.  Alternation is ordered (`a`
preferred), `starCls` is the greedy closure of a one-character class,
`grp i r` is capture group number `i`, `wb` is the `\b` word boundary. -/
inductive RE where
  | eps
  | lit (s : List Char)
  | cls (p : Char → Bool)
  | starCls (p : Char → Bool)
  | alt (a b : RE)
  | seq (a b : RE)
  | grp (i : Nat) (r : RE)
  | wb

/-- Number of capture groups of a pattern (number of `(`-groups, which is what
`re.findall` keys its result shape on). -/
def numGroups : RE → Nat
  | .eps | .lit _ | .cls _ | .starCls _ | .wb => 0
  | .alt a b | .seq a b => numGroups a + numGroups b
  | .grp _ r => numGroups r + 1

/-- Python `\w` on ASCII text: letters, digits, underscore. -/
def pyIsWord (c : Char) : Bool := c.isAlphanum || c == '_'

/-- Word-character test for an optional boundary character (`none` = before
the start / past the end of the text, which counts as non-word). -/
def isWordOpt : Option Char → Bool
  | some c => pyIsWord c
  | none => false

/-- Python `\s` restricted to the ASCII whitespace the inputs contain. -/
def pyIsSpace (c : Char) : Bool := c == ' ' || c == '\t' || c == '\n' || c == '\r'

/-- Python `\S`. -/
def pyNotSpace (c : Char) : Bool := !pyIsSpace c

/-- The character class `[:=]`. -/
def colonEq (c : Char) : Bool := c == ':' || c == '='

/-- The last character actually consumed, with fallback to the previous one
(used to thread the character preceding the current position for `\b`). -/
def lastPrev (prev : Option Char) (consumed : List Char) : Option Char :=
  match consumed.getLast? with
  | some c => some c
  | none => prev

/-- Run a pattern at the current position.  `prev` is the character just
before the position (for `\b`), `input` the remaining text, `caps` the capture
environment.  Returns every way the pattern can match a prefix of `input`, as
`(new prev, remaining input, captures)`, in Python's backtracking priority
order (greedy quantifiers longest first, alternatives left first); the head of
the list is the match Python's engine produces. -/
def mrun : RE → Option Char → List Char → List (Nat × List Char) →
    List (Option Char × List Char × List (Nat × List Char))
  | .eps, prev, input, caps => [(prev, input, caps)]
  | .lit s, prev, input, caps =>
    if ciStartsWith s input then
      [(lastPrev prev (input.take s.length), input.drop s.length, caps)]
    else []
  | .cls p, _, input, caps =>
    match input with
    | [] => []
    | c :: rest => if p c then [(some c, rest, caps)] else []
  | .starCls p, prev, input, caps =>
    let n := (input.takeWhile p).length
    (List.range (n + 1)).reverse.map
      (fun k => (lastPrev prev (input.take k), input.drop k, caps))
  | .alt a b, prev, input, caps => mrun a prev input caps ++ mrun b prev input caps
  | .seq a b, prev, input, caps =>
    (mrun a prev input caps).flatMap (fun st => mrun b st.1 st.2.1 st.2.2)
  | .grp i r, prev, input, caps =>
    (mrun r prev input caps).map
      (fun st => (st.1, st.2.1, (i, input.take (input.length - st.2.1.length)) :: st.2.2))
  | .wb, prev, input, caps =>
    if isWordOpt prev != isWordOpt input.head? then [(prev, input, caps)] else []

/-- Scan for successive non-overlapping matches from left to right, the way
`re.findall` does: at each position try the pattern; on a match record
`(matched text, captures)` and resume after it (one character further for an
empty match); on failure advance one character.  `fuel` bounds the recursion
and is instantiated with `input.length + 1`. -/
def findallAux (r : RE) : Nat → Option Char → List Char →
    List (List Char × List (Nat × List Char))
  | 0, _, _ => []
  | fuel + 1, prev, input =>
    match (mrun r prev input []).head? with
    | some st =>
      let consumed := input.length - st.2.1.length
      let full := input.take consumed
      if consumed == 0 then
        match input with
        | [] => [(full, st.2.2)]
        | c :: rest => (full, st.2.2) :: findallAux r fuel (some c) rest
      else
        (full, st.2.2) :: findallAux r fuel st.1 st.2.1
    | none =>
      match input with
      | [] => []
      | c :: rest => findallAux r fuel (some c) rest

/-- Text of capture group `i` in a capture environment; an unset (optional,
non-participating) group reads back as `''`, as in Python. -/
def capLookup (caps : List (Nat × List Char)) (i : Nat) : String :=
  match caps.find? (fun c => c.1 == i) with
  | some c => String.mk c.2
  | none => ""

/-- All matches of `r` in `s`, each as (full matched text, texts of groups
`1 .. numGroups r`). -/
def engineFindall (r : RE) (s : String) : List (String × List String) :=
  (findallAux r (s.length + 1) none s.data).map
    (fun m => (String.mk m.1, (List.range (numGroups r)).map (fun i => capLookup m.2 (i + 1))))

/-- Shape of one element of a Python `findall` result list: a plain string
(pattern with zero groups: the full match; exactly one group: that group's
text) or a tuple of the groups' texts (two or more groups). -/
inductive PyItem where
  | str (v : String)
  | tup (vs : List String)
deriving DecidableEq

/-- Embedding of `pattern.findall(text)` with Python's documented result
shape. -/
def pyFindall (r : RE) (s : String) : List PyItem :=
  (engineFindall r s).map
    (fun m =>
      match numGroups r with
      | 0 => .str m.1
      | 1 => .str (m.2.headD "")
      | _ + 2 => .tup m.2)

/-- Embedding of the projection in `scan_text` (line 86):
`match if isinstance(match, str) else match[0]`. -/
def matchStr : PyItem → String
  | .str v => v
  | .tup vs => vs.headD ""

/-! ## The detector -/

/-- The attributes `SensitiveDataDetector.__init__` installs when it succeeds:
the ordered rule registry `self.patterns` and the NLP person-name capability
(`self.nlp`, modelled as the function from a text to the `PERSON` entity texts
it returns). -/
structure DetectorCore where
  patterns : List (String × RE)
  nlp : String → List String

/-- Embedding of `SensitiveDataDetector` (lines 18-70).  `__init__` wraps its
body in `try/except`: when `spacy.load` (or any later step) raises, the
exception is swallowed and the attributes are never installed, which `core =
none` models. -/
structure SensitiveDataDetector where
  core : Option DetectorCore

/-- Embedding of `scan_text` (lines 72-98): accumulate, for every registry
rule in order, one finding per `findall` item, projecting a tuple to its first
element; then append the NLP `PERSON` findings.  When the attributes are
missing (failed `__init__`), the attribute access raises inside the `try`, the
exception is caught, and the matches accumulated so far — none — are
returned. -/
def scan_text (d : SensitiveDataDetector) (text : String) : List (String × String) :=
  match d.core with
  | none => []
  | some core =>
    core.patterns.flatMap
      (fun lp => (pyFindall lp.2 text).map (fun m => (lp.1, matchStr m)))
    ++ (core.nlp text).map (fun ent => ("Full Name", ent))

/-- Sequence a list of pattern pieces. -/
def reSeq (rs : List RE) : RE := rs.foldr RE.seq .eps

/-- Greedy `r?`: try `r` first, then the empty match. -/
def reOpt (r : RE) : RE := .alt r .eps

/-- A case-insensitive literal piece from a string. -/
def litS (s : String) : RE := .lit s.data

/-- The `"Billing Info"` registry rule (`sensitive_data_detector.py` line 42):
`billing\s*(code|info|amount)?[:=]?\s*\S+` with `re.IGNORECASE`.  Its one
capture group is optional, so `findall` returns the group's text — `''` when
the group did not participate in the match. -/
def billingInfoRE : RE :=
  reSeq [litS "billing", .starCls pyIsSpace,
         reOpt (.grp 1 (.alt (litS "code") (.alt (litS "info") (litS "amount")))),
         reOpt (.cls colonEq), .starCls pyIsSpace,
         .cls pyNotSpace, .starCls pyNotSpace]

/-- The `"Test Result Code"` registry rule (line 60):
`\b(test|result)\s*(code|id)?[:=]?\s*[A-Z0-9]{4,}\b` with `re.IGNORECASE`
(under which `[A-Z0-9]` also matches lowercase letters).  Two capture groups,
so `findall` returns tuples of the two groups' texts. -/
def testResultCodeRE : RE :=
  reSeq [.wb, .grp 1 (.alt (litS "test") (litS "result")), .starCls pyIsSpace,
         reOpt (.grp 2 (.alt (litS "code") (litS "id"))),
         reOpt (.cls colonEq), .starCls pyIsSpace,
         .cls Char.isAlphanum, .cls Char.isAlphanum, .cls Char.isAlphanum,
         .cls Char.isAlphanum, .starCls Char.isAlphanum, .wb]

/-- A successfully initialised detector whose registry holds just the
`"Test Result Code"` rule and whose NLP capability finds no names (what spaCy
returns on the demonstration texts). -/
def trDetector : SensitiveDataDetector :=
  ⟨some ⟨[("Test Result Code", testResultCodeRE)], fun _ => []⟩⟩

/-- A successfully initialised detector whose registry holds just the
`"Billing Info"` rule and whose NLP capability finds no names. -/
def biDetector : SensitiveDataDetector :=
  ⟨some ⟨[("Billing Info", billingInfoRE)], fun _ => []⟩⟩

/-- A detector whose `__init__` raised (e.g. the spaCy model could not be
loaded): no attributes were installed. -/
def failedDetector : SensitiveDataDetector := ⟨none⟩

/-! ## Tickets

A SysAid ticket as the synchronisation loop consumes it (the generator in
`sysaid_api.py` lines 48-56 populates `id`, `title`, `description`,
`priority`, `parent_id`; `update_time` is read with `ticket.get("update_time",
0)`).  Unread fields (`status`, `created_at`) are omitted.  `priority` is
`Option` because `map_priority` must accept `None`.  `parent_id : Option Nat`
models `ticket.get("parent_id")` under Python truthiness: the code only ever
asks `if ticket.get("parent_id"):`, which treats a missing key and the falsy
placeholder `""` the generator uses identically, so `none` stands for
absent-or-falsy and `some p` for a truthy parent id.  `update_time : Option
Int` is the epoch-milliseconds value, `none` when the key is absent. -/

structure Ticket where
  id : Nat
  title : String
  description : String
  priority : Option String
  parent_id : Option Nat
  update_time : Option Int
deriving DecidableEq

/-- Embedding of `scan_and_redact_ticket` (lines 122-151) for the one
configured field, `"description"`: when the field's content is a truthy
(non-empty) string, scan it; when there are matches, record them under the
field name and return a copy of the ticket with the field redacted; otherwise
the returned copy equals the input ticket. -/
def scan_and_redact_ticket (d : SensitiveDataDetector) (ticket : Ticket) :
    List (String × List (String × String)) × Ticket :=
  let content := ticket.description
  if content != "" then
    let found := scan_text d content
    if !found.isEmpty then
      ([("description", found)],
       { ticket with description := redact_text content found })
    else ([], ticket)
  else ([], ticket)

/-! ## The Azure DevOps side (`ado_api.py`)

Each remote call is modelled by its response: `.ok` with the parsed payload
the code reads, `.error ()` when the underlying `requests` call raises. -/

/-- `BaseConfig.ADO_ORG` (`config.py`). -/
def ADO_ORG : String := "orgName"

/-- `BaseConfig.ADO_PROJECT` (`config.py`). -/
def ADO_PROJECT : String := "projectName"

/-- A JSON-Patch value as the payloads build them: a string field value, the
numeric priority, or a relation object (`rel`, `url`,
`attributes.comment`). -/
inductive PatchValue where
  | str (s : String)
  | num (n : Nat)
  | rel (relType url comment : String)
deriving DecidableEq

/-- One JSON-Patch operation of a work-item payload. -/
structure PatchOp where
  op : String
  path : String
  value : PatchValue
deriving DecidableEq

/-- The parent work-item URL interpolated into both payload builders. -/
def parentWorkItemUrl (parent_id : Nat) : String :=
  "https://dev.azure.com/" ++ ADO_ORG ++ "/" ++ ADO_PROJECT ++
    "/_apis/wit/workItems/" ++ toString parent_id

/-- The hierarchy-parent relation operation appended by both payload
builders. -/
def parentRelOp (parent_id : Nat) : PatchOp :=
  ⟨"add", "/relations/-",
   .rel "System.LinkTypes.Hierarchy-Reverse" (parentWorkItemUrl parent_id)
     "Linked to parent work item via SysAid integration"⟩

/-- Embedding of `map_priority` (`ado_api.py` lines 174-184):
`priority_mapping.get(priority, 2)` over the dict `{High: 1, Medium: 2,
Low: 3}`; any other key — including `None` — falls back to the default `2`.
The function is total, matching the code's lack of any failure path. -/
def map_priority : Option String → Nat
  | some "High" => 1
  | some "Medium" => 2
  | some "Low" => 3
  | _ => 2

/-- The `bug_data` payload of `create_ado_bug` (lines 89-109): title,
description, the `Custom.SysAidID` external-id reference field (`str(
ticket["id"])`), the mapped priority, and — only under `if
ticket.get("parent_id"):` — the hierarchy-parent relation. -/
def create_bug_data (t : Ticket) : List PatchOp :=
  [⟨"add", "/fields/System.Title", .str t.title⟩,
   ⟨"add", "/fields/System.Description", .str t.description⟩,
   ⟨"add", "/fields/Custom.SysAidID", .str (toString t.id)⟩,
   ⟨"add", "/fields/Microsoft.VSTS.Common.Priority", .num (map_priority t.priority)⟩]
  ++ (match t.parent_id with
      | some pid => [parentRelOp pid]
      | none => [])

/-- The payload of the work-item GET with `$expand=relations` that
`already_linked` reads: the `_links.self.href` string and the relations, each
a `(rel, url)` pair. -/
structure LinkData where
  selfHref : String
  relations : List (String × String)
deriving DecidableEq

/-- Decidable equality for `Except`, needed to evaluate concrete
environments. -/
def Except.decEq {ε α : Type} [DecidableEq ε] [DecidableEq α] :
    (a b : Except ε α) → Decidable (a = b)
  | .ok a, .ok b =>
    if h : a = b then .isTrue (by rw [h]) else .isFalse (by simp [h])
  | .ok _, .error _ => .isFalse (by simp)
  | .error _, .ok _ => .isFalse (by simp)
  | .error a, .error b =>
    if h : a = b then .isTrue (by rw [h]) else .isFalse (by simp [h])

instance {ε α : Type} [DecidableEq ε] [DecidableEq α] : DecidableEq (Except ε α) :=
  Except.decEq

/-- The per-ticket remote responses: `findResp` for the WIQL query of
`find_existing_bug` (the list of returned work-item ids), `lastUpdResp` for
the `System.ChangedDate` fetch (epoch milliseconds), `linkResp` for the
relations fetch of `already_linked`, `createResp` for the bug-creation POST
(the created bug's `id`), `updateResp` for the update PATCH.  `.error ()`
models the call raising. -/
structure Env where
  findResp : Except Unit (List Nat)
  lastUpdResp : Except Unit Int
  linkResp : Except Unit LinkData
  createResp : Except Unit Nat
  updateResp : Except Unit Unit
deriving DecidableEq

/-- Embedding of `find_existing_bug` (lines 43-66): on a successful response,
`work_items[0]["id"] if work_items else None`; a raised
`requests.RequestException` is caught and the function returns `None` ("fail
gracefully and treat as not found"). -/
def find_existing_bug (resp : Except Unit (List Nat)) : Option Nat :=
  match resp with
  | .ok work_items => work_items.head?
  | .error _ => none

/-- Embedding of `get_work_item_last_updated` (lines 68-78): the parsed
`System.ChangedDate` in epoch milliseconds, or `0` when anything in the fetch
raises (bare `except Exception`). -/
def get_work_item_last_updated (resp : Except Unit Int) : Int :=
  match resp with
  | .ok ts => ts
  | .error _ => 0

/-- Embedding of `data['_links']['self']['href'].rsplit('/', 1)[0]`: the part
of `href` before its last `/`, or all of `href` when it has none. -/
def hrefBase (href : String) : String :=
  match (href.data.reverse.dropWhile (fun c => c != '/')) with
  | [] => href
  | _ :: restRev => String.mk restRev.reverse

/-- Embedding of the inner `already_linked` of `update_ado_bug` (lines
124-139): on a successful relations fetch, whether some relation has exactly
the reconstructed parent URL and the `Hierarchy-Reverse` relation type; any
exception is caught and reported as `False` ("not yet linked", so the link is
attempted).  `bug_id` only feeds the request URL in the code and is unused
here. -/
def already_linked (resp : Except Unit LinkData) (bug_id parent_id : Nat) : Bool :=
  match resp with
  | .ok data =>
    let parent_url := hrefBase data.selfHref ++ "/" ++ toString parent_id
    data.relations.any
      (fun r => r.2 == parent_url && r.1 == "System.LinkTypes.Hierarchy-Reverse")
  | .error _ => false

/-- The `bug_data` payload of `update_ado_bug` (lines 144-163): title,
description and mapped priority — no `Custom.SysAidID` operation — plus the
hierarchy-parent relation only under `if ticket.get("parent_id") and not
already_linked(bug_id, ticket["parent_id"]):`. -/
def update_bug_data (env : Env) (bug_id : Nat) (t : Ticket) : List PatchOp :=
  [⟨"add", "/fields/System.Title", .str t.title⟩,
   ⟨"add", "/fields/System.Description", .str t.description⟩,
   ⟨"add", "/fields/Microsoft.VSTS.Common.Priority", .num (map_priority t.priority)⟩]
  ++ (match t.parent_id with
      | some pid =>
        if !already_linked env.linkResp bug_id pid then [parentRelOp pid] else []
      | none => [])

/-- Terminal outcome of one ticket's pass through the sync loop: `created`
and `updated` are the two audit-logged actions, `skipped` the "unchanged since
ADO last update" branch, `failed` the loop's `except` branch. -/
inductive Outcome where
  | created (bugId : Nat)
  | updated
  | skipped
  | failed
deriving DecidableEq

/-- Whether an outcome is `created` (with any remote id). -/
def Outcome.isCreatedOutcome : Outcome → Bool
  | .created _ => true
  | _ => false

/-- Whether an outcome is `updated`. -/
def Outcome.isUpdatedOutcome : Outcome → Bool
  | .updated => true
  | _ => false

/-- Whether an outcome is `failed`. -/
def Outcome.isFailedOutcome : Outcome → Bool
  | .failed => true
  | _ => false

/-- A mutation actually sent to the remote system: the bug-creation POST with
its payload, or the update PATCH with its target and payload. -/
inductive MutationCall where
  | create (payload : List PatchOp)
  | update (bugId : Nat) (payload : List PatchOp)
deriving DecidableEq

/-- Python truthiness of `existing_bug_id` (an `int` or `None`): `None` and
`0` are falsy. -/
def pyTruthy : Option Nat → Bool
  | none => false
  | some n => n != 0

/-- Embedding of the reconciliation step of the sync loop (`main.py` lines
45-58 together with the bodies of `create_ado_bug` / `update_ado_bug`), for a
ticket that has already been through redaction.  Returns the ticket's outcome
and the mutation calls issued.  `if existing_bug_id:` is Python truthiness on
the lookup result; `ticket.get("update_time", 0)` is the dict default.  A
raised create/update call is re-raised by `ado_api.py` and caught by the
loop's `except`, so it yields `failed` — after the mutation call was made. -/
def reconcile (env : Env) (t : Ticket) : Outcome × List MutationCall :=
  let existing_bug_id := find_existing_bug env.findResp
  if pyTruthy existing_bug_id then
    let bugId := existing_bug_id.getD 0
    let ado_updated_ts := get_work_item_last_updated env.lastUpdResp
    if t.update_time.getD 0 > ado_updated_ts then
      let payload := update_bug_data env bugId t
      match env.updateResp with
      | .ok _ => (.updated, [.update bugId payload])
      | .error _ => (.failed, [.update bugId payload])
    else
      (.skipped, [])
  else
    let payload := create_bug_data t
    match env.createResp with
    | .ok newId => (.created newId, [.create payload])
    | .error _ => (.failed, [.create payload])

/-- One full pass of the loop body for one ticket: redact, then reconcile;
the outcome is what drives the run counters. -/
def syncOutcome (d : SensitiveDataDetector) (item : Ticket × Env) : Outcome :=
  (reconcile item.2 (scan_and_redact_ticket d item.1).2).1

/-- The run-level counters reported by the summary at the end of `main`. -/
structure Summary where
  created : Nat
  updated : Nat
  failed : Nat
deriving DecidableEq

/-- One iteration of the run loop: the ticket's outcome bumps exactly its
counter (`skipped` bumps none; a failure — the loop's `except` branch — only
increments the failed counter). -/
def runStep (d : SensitiveDataDetector) (s : Summary) (item : Ticket × Env) : Summary :=
  match syncOutcome d item with
  | .created _ => { s with created := s.created + 1 }
  | .updated => { s with updated := s.updated + 1 }
  | .skipped => s
  | .failed => { s with failed := s.failed + 1 }

/-- Embedding of the run loop of `main` (`main.py` lines 36-68): process every
ticket in order against its remote responses, starting from zeroed counters;
the returned summary is the one the code always logs and prints after the
loop. -/
def runMain (d : SensitiveDataDetector) (items : List (Ticket × Env)) : Summary :=
  items.foldl (runStep d) ⟨0, 0, 0⟩

/-! ## Concrete tickets and environments used by witnesses and
counterexamples -/

/-- A ticket with a harmless description, for exercising the degraded
detector. -/
def sampleTicket : Ticket :=
  ⟨3, "Payroll System - Search not working", "Search returns no results",
   some "Low", none, some 1700000000000⟩

/-- Ticket not found remotely (empty WIQL result) and the creation POST
raises. -/
def envC1cex : Env := ⟨.ok [], .ok 0, .error (), .error (), .ok ()⟩

/-- A redacted ticket without a parent. -/
def ticketC1cex : Ticket :=
  ⟨1, "Email Service - Login failure", "User cannot log in", some "High", none, some 5⟩

/-- Ticket not found remotely; creation succeeds with new bug id 42. -/
def envC1w : Env := ⟨.ok [], .ok 0, .error (), .ok 42, .ok ()⟩

/-- A redacted ticket with a parent work item. -/
def ticketC1w : Ticket :=
  ⟨1, "CRM Portal - Slow response", "The application is slow", some "High", some 7, some 5⟩

/-- Ticket found remotely (bug 5), remote last-modified 100. -/
def envC2w : Env := ⟨.ok [5], .ok 100, .error (), .error (), .ok ()⟩

/-- A ticket older than the remote record (update_time 50 ≤ 100). -/
def ticketC2w : Ticket :=
  ⟨2, "HR Management System - Timeout issue", "Frequent timeouts", some "Low", none, some 50⟩

/-- Ticket found remotely (bug 9), stale remote record (last-modified 10),
relations fetch shows the parent link to work item 7 already present. -/
def envC3w : Env :=
  ⟨.ok [9], .ok 10,
   .ok ⟨"https://dev.azure.com/orgName/projectName/_apis/wit/workitems/9",
        [("System.LinkTypes.Hierarchy-Reverse",
          "https://dev.azure.com/orgName/projectName/_apis/wit/workitems/7")]⟩,
   .error (), .ok ()⟩

/-- A newer ticket (update_time 99 > 10) with parent 7. -/
def ticketC3w : Ticket :=
  ⟨4, "Inventory Tracker - Data sync error", "Records are not syncing",
   some "Medium", some 7, some 99⟩

/-- The lookup call itself raises; creation succeeds with id 11. -/
def envC4w : Env := ⟨.error (), .ok 0, .error (), .ok 11, .ok ()⟩

/-- A ticket whose priority label is unrecognized and whose update_time key is
absent. -/
def ticketC4w : Ticket :=
  ⟨6, "Mobile App - Unexpected crash", "The app crashes", some "Unknown", none, none⟩

/-- Ticket not found remotely and the creation POST raises: the ticket
fails. -/
def envFailw : Env := ⟨.ok [], .ok 0, .error (), .error (), .ok ()⟩

/-- A ticket for the all-failed run. -/
def ticketC8w : Ticket :=
  ⟨7, "Analytics Dashboard - UI glitch", "Buttons are unresponsive", some "Low", none, some 3⟩

/-- A one-ticket batch on which every ticket fails. -/
def itemsC8w : List (Ticket × Env) := [(ticketC8w, envFailw)]

/-! ## Helper lemmas -/

theorem ciStartsWith_nil_left (s : List Char) : ciStartsWith [] s = true := by
  cases s <;> rfl

theorem ciOccurs_cons (v : List Char) (c : Char) (rest : List Char) :
    ciOccurs v (c :: rest) = (ciStartsWith v (c :: rest) || ciOccurs v rest) := rfl

theorem ciStartsWith_self_append (m x : List Char) :
    ciStartsWith m (m ++ x) = true := by
  induction m with
  | nil => exact ciStartsWith_nil_left x
  | cons c cs ih => simp [ciStartsWith, ciEqc, ih]

theorem ciOccurs_of_ciStartsWith {v s : List Char} (h : ciStartsWith v s = true) :
    ciOccurs v s = true := by
  cases s with
  | nil => simpa [ciOccurs] using h
  | cons c rest => simp [ciOccurs, h]

theorem ciReplaceAllFuel_eq_of_not_occurs (v m : List Char) :
    ∀ (fuel : Nat) (s : List Char), s.length ≤ fuel → ciOccurs v s = false →
      ciReplaceAllFuel v m fuel s = s := by
  intro fuel
  induction fuel with
  | zero =>
    intro s hlen _
    cases s with
    | nil => rfl
    | cons c rest => simp at hlen
  | succ n ih =>
    intro s hlen hocc
    cases s with
    | nil => rfl
    | cons c rest =>
      rw [ciOccurs_cons] at hocc
      have h1 : ciStartsWith v (c :: rest) = false := by
        cases hsw : ciStartsWith v (c :: rest) <;> simp [hsw] at hocc ⊢
      have h2 : ciOccurs v rest = false := by
        cases ho : ciOccurs v rest <;> simp [ho] at hocc ⊢
      have hlen' : rest.length ≤ n := by simp at hlen; omega
      simp [ciReplaceAllFuel, h1, ih rest hlen' h2]

theorem ciReplaceAll_eq_of_not_occurs {v s : List Char} (m : List Char)
    (h : ciOccurs v s = false) : ciReplaceAll v m s = s :=
  ciReplaceAllFuel_eq_of_not_occurs v m s.length s (Nat.le_refl _) h

theorem ciOccurs_marker_of_occurs (v m : List Char) (hv : v.isEmpty = false) :
    ∀ (fuel : Nat) (s : List Char), s.length ≤ fuel → ciOccurs v s = true →
      ciOccurs m (ciReplaceAllFuel v m fuel s) = true := by
  intro fuel
  induction fuel with
  | zero =>
    intro s hlen hocc
    cases s with
    | nil =>
      cases v with
      | nil => simp [List.isEmpty] at hv
      | cons a as => simp [ciOccurs, ciStartsWith] at hocc
    | cons c rest => simp at hlen
  | succ n ih =>
    intro s hlen hocc
    cases s with
    | nil =>
      cases v with
      | nil => simp [List.isEmpty] at hv
      | cons a as => simp [ciOccurs, ciStartsWith] at hocc
    | cons c rest =>
      cases hsw : ciStartsWith v (c :: rest) with
      | true =>
        simp [ciReplaceAllFuel, hv, hsw]
        exact ciOccurs_of_ciStartsWith (ciStartsWith_self_append m _)
      | false =>
        have h2 : ciOccurs v rest = true := by
          rw [ciOccurs_cons, hsw] at hocc
          simpa using hocc
        have hlen' : rest.length ≤ n := by simp at hlen; omega
        simp [ciReplaceAllFuel, hsw, ciOccurs_cons, ih rest hlen' h2]

/-! ## Claim C5 — redaction semantics -/

/-- C5: `redact_text` replaces, for each finding whose matched literal is
non-empty, all case-insensitive occurrences of that literal substring with the
fixed marker `"[REDACTED]"` (the literal is escaped, so it is matched as a
literal), and a finding whose matched literal is the empty string is discarded
(causes no substitution): the source fold equals the spec-worded
filter-then-replace (`redactSpec`); additionally, a non-empty literal with no
case-insensitive occurrence leaves the text unchanged, and one with an
occurrence leaves the marker in the output. -/
theorem C5_redact_text_replaces_all :
    (∀ (text : String) (findings : List (String × String)),
      redact_text text findings = redactSpec text findings) ∧
    (∀ (v s : List Char), v.isEmpty = false → ciOccurs v s = false →
      ciReplaceAll v redactMarker.data s = s) ∧
    (∀ (v s : List Char), v.isEmpty = false → ciOccurs v s = true →
      ciOccurs redactMarker.data (ciReplaceAll v redactMarker.data s) = true) := by
  refine ⟨?_, ?_, ?_⟩
  · intro text findings
    induction findings generalizing text with
    | nil => rfl
    | cons f fs ih =>
      cases h : (f.2 != "") with
      | true =>
        have hne : f.2 ≠ "" := by simpa using h
        have e1 : redact_text text (f :: fs) =
            redact_text (String.mk (ciReplaceAll f.2.data redactMarker.data text.data)) fs := by
          simp [redact_text, hne]
        have e2 : redactSpec text (f :: fs) =
            redactSpec (String.mk (ciReplaceAll f.2.data redactMarker.data text.data)) fs := by
          simp [redactSpec, List.filter_cons, h, hne]
        rw [e1, e2, ih]
      | false =>
        have heq : f.2 = "" := by simpa using h
        have e1 : redact_text text (f :: fs) = redact_text text fs := by
          simp [redact_text, heq]
        have e2 : redactSpec text (f :: fs) = redactSpec text fs := by
          simp [redactSpec, List.filter_cons, h, heq]
        rw [e1, e2, ih]
  · intro v s _ h
    exact ciReplaceAll_eq_of_not_occurs _ h
  · intro v s hv h
    exact ciOccurs_marker_of_occurs v _ hv s.length s (Nat.le_refl _) h

/-- Witness for C5 at concrete inputs. -/
theorem C5_witness :
    redact_text "SSN: 123-45-6789; again 123-45-6789" [("SSN", "123-45-6789"), ("Empty", "")] =
      redactSpec "SSN: 123-45-6789; again 123-45-6789" [("SSN", "123-45-6789"), ("Empty", "")] ∧
    ciReplaceAll "zq".data redactMarker.data "abc".data = "abc".data ∧
    ciOccurs redactMarker.data (ciReplaceAll "zq".data redactMarker.data "aZqb".data) = true :=
  ⟨C5_redact_text_replaces_all.1 _ _,
   C5_redact_text_replaces_all.2.1 "zq".data "abc".data (by decide) (by decide),
   C5_redact_text_replaces_all.2.2 "zq".data "aZqb".data (by decide) (by decide)⟩

/-! ## Claim C6 — priority mapping -/

/-- C6: `map_priority` is a pure total function: High ↦ 1, Medium ↦ 2,
Low ↦ 3, and every unrecognized input — the empty string, `None`, `"Unknown"`
or any other label — maps to 2; every output is in {1, 2, 3}. -/
theorem C6_map_priority_total :
    map_priority (some "High") = 1 ∧ map_priority (some "Medium") = 2 ∧
    map_priority (some "Low") = 3 ∧ map_priority none = 2 ∧
    map_priority (some "") = 2 ∧ map_priority (some "Unknown") = 2 ∧
    (∀ p : Option String, map_priority p = 1 ∨ map_priority p = 2 ∨ map_priority p = 3) ∧
    (∀ s : String, s ≠ "High" → s ≠ "Medium" → s ≠ "Low" → map_priority (some s) = 2) := by
  refine ⟨rfl, rfl, rfl, rfl, rfl, rfl, ?_, ?_⟩
  · intro p
    unfold map_priority
    split <;> simp
  · intro s h1 h2 h3
    unfold map_priority
    split <;> simp_all

/-- Witness for C6 at a concrete unrecognized label. -/
theorem C6_witness : map_priority (some "Bogus") = 2 :=
  C6_map_priority_total.2.2.2.2.2.2.2 "Bogus" (by decide) (by decide) (by decide)

/-! ## Claim C7 — idempotence of redaction -/

/-- C7: once one application of `redact_text` has removed every
case-insensitive occurrence of each non-empty finding literal, a second
application changes nothing: `redact_text (redact_text text findings)
findings = redact_text text findings`. -/
theorem C7_redact_idempotent :
    ∀ (text : String) (findings : List (String × String)),
      (∀ f ∈ findings, f.2 ≠ "" →
        ciOccurs f.2.data (redact_text text findings).data = false) →
      redact_text (redact_text text findings) findings = redact_text text findings := by
  intro text findings h
  set R := redact_text text findings with hR
  have key : ∀ (fs : List (String × String)),
      (∀ f ∈ fs, f.2 ≠ "" → ciOccurs f.2.data R.data = false) →
      redact_text R fs = R := by
    intro fs
    induction fs with
    | nil => intro _; rfl
    | cons f fs ih =>
      intro hfs
      have hstep : (if f.2 != "" then
          String.mk (ciReplaceAll f.2.data redactMarker.data R.data) else R) = R := by
        cases hf : (f.2 != "") with
        | false => simp
        | true =>
          have hne : f.2 ≠ "" := by simpa using hf
          have hocc := hfs f (List.mem_cons_self f fs) hne
          simp only [if_true]
          rw [ciReplaceAll_eq_of_not_occurs _ hocc]
      have e1 : redact_text R (f :: fs) =
          redact_text (if f.2 != "" then
            String.mk (ciReplaceAll f.2.data redactMarker.data R.data) else R) fs := by
        simp [redact_text]
      rw [e1, hstep]
      exact ih (fun g hg => hfs g (List.mem_cons_of_mem _ hg))
  exact key findings h

/-- Witness for C7: after redacting `"xy"` out of `"xXyYz"` no occurrence
remains, and the second pass is the identity. -/
theorem C7_witness :
    redact_text (redact_text "xXyYz" [("L", "xy")]) [("L", "xy")] =
      redact_text "xXyYz" [("L", "xy")] :=
  C7_redact_idempotent "xXyYz" [("L", "xy")] (by decide)

/-! ## Claim C9 — capture-group findings -/

/-- C9: for every rule pattern with capture groups, `scan_text` records the
first capture group of each match, not the full matched substring.  The first
conjunct states this for every pattern with at least one group: the recorded
text (`match if isinstance(match, str) else match[0]`) is the first group of
each match.  The concrete conjuncts run the embedded registry rules: on
`"Test Result Code: ABC123"` the `"Test Result Code"` rule's full match is
`"Test Result"` but the finding records only the first group `"Test"`, and
redaction therefore substitutes only that group's text; on `"billing 12345"`
the `"Billing Info"` rule's optional first group does not participate, the
finding records the empty string, and `redact_text` discards it. -/
theorem C9_findall_records_first_group :
    (∀ (r : RE) (s : String), 1 ≤ numGroups r →
      (pyFindall r s).map matchStr = (engineFindall r s).map (fun m => m.2.headD "")) ∧
    engineFindall testResultCodeRE "Test Result Code: ABC123" = [("Test Result", ["Test", ""])] ∧
    scan_text trDetector "Test Result Code: ABC123" = [("Test Result Code", "Test")] ∧
    redact_text "Test Result Code: ABC123" [("Test Result Code", "Test")] =
      "[REDACTED] Result Code: ABC123" ∧
    engineFindall billingInfoRE "billing 12345" = [("billing 12345", [""])] ∧
    scan_text biDetector "billing 12345" = [("Billing Info", "")] ∧
    redact_text "billing 12345" [("Billing Info", "")] = "billing 12345" := by
  refine ⟨?_, by decide, by decide, by decide, by decide, by decide, by decide⟩
  intro r s h
  unfold pyFindall
  cases hn : numGroups r with
  | zero => omega
  | succ n =>
    cases n with
    | zero => simp [matchStr, List.map_map, Function.comp]
    | succ m => simp [matchStr, List.map_map, Function.comp]

/-- Witness for C9's general conjunct at the two-group rule. -/
theorem C9_witness :
    (pyFindall testResultCodeRE "Test Result Code: ABC123").map matchStr =
      (engineFindall testResultCodeRE "Test Result Code: ABC123").map (fun m => m.2.headD "") :=
  C9_findall_records_first_group.1 testResultCodeRE "Test Result Code: ABC123" (by decide)

/-! ## Claim C10 — degraded detector -/

/-- C10: when `SensitiveDataDetector.__init__` fails (the exception is
swallowed and no attributes are installed), every `scan_text` call returns the
empty findings list — the attribute error inside its `try` is caught — and
`scan_and_redact_ticket` returns empty findings together with a ticket equal
to its input: the detector degrades to a silent no-op. -/
theorem C10_detector_degrades (d : SensitiveDataDetector) (h : d.core = none) :
    (∀ text : String, scan_text d text = []) ∧
    (∀ t : Ticket, scan_and_redact_ticket d t = ([], t)) := by
  constructor
  · intro text
    unfold scan_text
    rw [h]
  · intro t
    unfold scan_and_redact_ticket
    have hs : scan_text d t.description = [] := by unfold scan_text; rw [h]
    simp [hs]

/-- Witness for C10 at a concretely failed detector. -/
theorem C10_witness :
    scan_text failedDetector "MRN123456 billing code X99" = [] ∧
    scan_and_redact_ticket failedDetector sampleTicket = ([], sampleTicket) :=
  ⟨(C10_detector_degrades failedDetector rfl).1 _,
   (C10_detector_degrades failedDetector rfl).2 _⟩

/-! ## Claim C2 — skip when unchanged -/

/-- C2: for a ticket found remotely (`find_existing_bug` returned a work-item
id the loop's truthiness guard accepts) whose `update_time` is at most the
remote last-modified time, the engine makes zero mutation calls and the
outcome is Skipped; the update branch — the only branch that issues a
mutation here — is taken only when `update_time` is strictly greater.
(`t.update_time.getD 0` is `ticket.get("update_time", 0)`.) -/
theorem C2_skip_when_unchanged (env : Env) (t : Ticket) (bugId : Nat)
    (hbug : find_existing_bug env.findResp = some bugId) (hnz : bugId ≠ 0) :
    (t.update_time.getD 0 ≤ get_work_item_last_updated env.lastUpdResp →
      reconcile env t = (Outcome.skipped, [])) ∧
    ((reconcile env t).2 ≠ [] →
      t.update_time.getD 0 > get_work_item_last_updated env.lastUpdResp) := by
  have hfound : pyTruthy (find_existing_bug env.findResp) = true := by
    rw [hbug]; simp [pyTruthy, hnz]
  by_cases hgt : t.update_time.getD 0 > get_work_item_last_updated env.lastUpdResp
  · exact ⟨fun hle => absurd hgt (not_lt.mpr hle), fun _ => hgt⟩
  · have hrec : reconcile env t = (Outcome.skipped, []) := by
      unfold reconcile
      simp [hfound, hgt]
    refine ⟨fun _ => hrec, fun hne => ?_⟩
    rw [hrec] at hne
    simp at hne

/-- Witness for C2: bug 5 found, remote last-modified 100, ticket
update_time 50 — skipped with no mutation calls. -/
theorem C2_witness : reconcile envC2w ticketC2w = (Outcome.skipped, []) :=
  (C2_skip_when_unchanged envC2w ticketC2w 5 (by decide) (by decide)).1 (by decide)

/-! ## Claim C4 — lookup failure treated as not found -/

/-- C4: when the lookup by external id fails with a request error,
`find_existing_bug` returns `None` instead of raising, and reconciliation
proceeds to the Create branch for that ticket: the one mutation issued is the
creation call (the ticket is neither dropped nor marked Failed by the lookup
failure itself). -/
theorem C4_lookup_fail_open (env : Env) (t : Ticket) (e : Unit)
    (herr : env.findResp = .error e) :
    find_existing_bug env.findResp = none ∧
    (reconcile env t).2 = [MutationCall.create (create_bug_data t)] := by
  have hnone : find_existing_bug env.findResp = none := by
    rw [herr]; rfl
  refine ⟨hnone, ?_⟩
  unfold reconcile
  rw [hnone]
  cases env.createResp <;> rfl

/-- Witness for C4: the WIQL call raises, the ticket flows into creation. -/
theorem C4_witness :
    find_existing_bug envC4w.findResp = none ∧
    (reconcile envC4w ticketC4w).2 = [MutationCall.create (create_bug_data ticketC4w)] :=
  C4_lookup_fail_open envC4w ticketC4w () rfl

/-! ## Claim C1 — create branch -/

theorem reconcile_create_trace (env : Env) (t : Ticket)
    (hnone : find_existing_bug env.findResp = none) :
    (reconcile env t).2 = [MutationCall.create (create_bug_data t)] := by
  unfold reconcile
  rw [hnone]
  cases env.createResp <;> rfl

theorem reconcile_create_ok (env : Env) (t : Ticket) (n : Nat)
    (hnone : find_existing_bug env.findResp = none)
    (hok : env.createResp = .ok n) :
    (reconcile env t).1 = Outcome.created n := by
  unfold reconcile
  rw [hnone, hok]
  rfl

theorem reconcile_create_error (env : Env) (t : Ticket) (e : Unit)
    (hnone : find_existing_bug env.findResp = none)
    (herr : env.createResp = .error e) :
    (reconcile env t).1 = Outcome.failed := by
  unfold reconcile
  rw [hnone, herr]
  rfl

theorem create_bug_data_fields (t : Ticket) :
    (⟨"add", "/fields/System.Title", .str t.title⟩ : PatchOp) ∈ create_bug_data t ∧
    (⟨"add", "/fields/System.Description", .str t.description⟩ : PatchOp) ∈ create_bug_data t ∧
    (⟨"add", "/fields/Custom.SysAidID", .str (toString t.id)⟩ : PatchOp) ∈ create_bug_data t ∧
    (⟨"add", "/fields/Microsoft.VSTS.Common.Priority",
        .num (map_priority t.priority)⟩ : PatchOp) ∈ create_bug_data t ∧
    ((∃ pid, parentRelOp pid ∈ create_bug_data t) ↔ t.parent_id.isSome) := by
  refine ⟨by simp [create_bug_data], by simp [create_bug_data],
          by simp [create_bug_data], by simp [create_bug_data], ?_⟩
  cases hp : t.parent_id with
  | none => simp [create_bug_data, hp, parentRelOp]
  | some p =>
    simp only [Option.isSome_some, iff_true]
    exact ⟨p, by simp [create_bug_data, hp]⟩

/-- C1 counterexample: with the lookup returning no existing record but the
creation POST raising, the create call is made exactly once, yet the ticket's
outcome is Failed, not Created — refuting the claim's unconditional "the
ticket's outcome is Created". -/
theorem C1_counterexample :
    find_existing_bug envC1cex.findResp = none ∧
    (reconcile envC1cex ticketC1cex).2 = [MutationCall.create (create_bug_data ticketC1cex)] ∧
    Outcome.isCreatedOutcome (reconcile envC1cex ticketC1cex).1 = false ∧
    (reconcile envC1cex ticketC1cex).1 = Outcome.failed := by decide

/-- C1 (amended): for every ticket whose remote lookup returns no existing
record, the engine calls the create operation exactly once — and no update —
with a payload built from the (already redacted) ticket containing title,
description, the external-id reference field and the mapped priority, and
containing a hierarchy-parent relation iff the ticket's `parent_id` is
present; if the create call succeeds the outcome is Created with the new
remote id, and if it raises the outcome is Failed. -/
theorem C1_create_branch (env : Env) (t : Ticket)
    (hnone : find_existing_bug env.findResp = none) :
    (reconcile env t).2 = [MutationCall.create (create_bug_data t)] ∧
    (⟨"add", "/fields/System.Title", .str t.title⟩ : PatchOp) ∈ create_bug_data t ∧
    (⟨"add", "/fields/System.Description", .str t.description⟩ : PatchOp) ∈ create_bug_data t ∧
    (⟨"add", "/fields/Custom.SysAidID", .str (toString t.id)⟩ : PatchOp) ∈ create_bug_data t ∧
    (⟨"add", "/fields/Microsoft.VSTS.Common.Priority",
        .num (map_priority t.priority)⟩ : PatchOp) ∈ create_bug_data t ∧
    ((∃ pid, parentRelOp pid ∈ create_bug_data t) ↔ t.parent_id.isSome) ∧
    (∀ n, env.createResp = .ok n → (reconcile env t).1 = Outcome.created n) ∧
    (∀ e, env.createResp = .error e → (reconcile env t).1 = Outcome.failed) := by
  obtain ⟨f1, f2, f3, f4, f5⟩ := create_bug_data_fields t
  exact ⟨reconcile_create_trace env t hnone, f1, f2, f3, f4, f5,
         fun n hok => reconcile_create_ok env t n hnone hok,
         fun e herr => reconcile_create_error env t e hnone herr⟩

/-- Witness for C1 (amended): not found, creation succeeds with id 42. -/
theorem C1_witness :
    (reconcile envC1w ticketC1w).2 = [MutationCall.create (create_bug_data ticketC1w)] ∧
    (reconcile envC1w ticketC1w).1 = Outcome.created 42 :=
  ⟨(C1_create_branch envC1w ticketC1w rfl).1,
   (C1_create_branch envC1w ticketC1w rfl).2.2.2.2.2.2.1 42 rfl⟩

/-! ## Claim C3 — update branch with safe parent linking -/

theorem reconcile_update_trace (env : Env) (t : Ticket) (bugId : Nat)
    (hbug : find_existing_bug env.findResp = some bugId) (hnz : bugId ≠ 0)
    (hgt : t.update_time.getD 0 > get_work_item_last_updated env.lastUpdResp) :
    (reconcile env t).2 = [MutationCall.update bugId (update_bug_data env bugId t)] := by
  have htruthy : (bugId != 0) = true := by simpa using hnz
  unfold reconcile
  rw [hbug]
  simp only [pyTruthy, htruthy, if_true, Option.getD_some, if_pos hgt]
  cases env.updateResp <;> rfl

theorem reconcile_update_ok (env : Env) (t : Ticket) (bugId : Nat)
    (hbug : find_existing_bug env.findResp = some bugId) (hnz : bugId ≠ 0)
    (hgt : t.update_time.getD 0 > get_work_item_last_updated env.lastUpdResp)
    (hok : env.updateResp = .ok ()) :
    (reconcile env t).1 = Outcome.updated := by
  have htruthy : (bugId != 0) = true := by simpa using hnz
  unfold reconcile
  rw [hbug, hok]
  simp only [pyTruthy, htruthy, if_true, Option.getD_some, if_pos hgt]

theorem update_bug_data_fields (env : Env) (bugId : Nat) (t : Ticket) :
    (⟨"add", "/fields/System.Title", .str t.title⟩ : PatchOp) ∈ update_bug_data env bugId t ∧
    (⟨"add", "/fields/System.Description", .str t.description⟩ : PatchOp) ∈
      update_bug_data env bugId t ∧
    (⟨"add", "/fields/Microsoft.VSTS.Common.Priority",
        .num (map_priority t.priority)⟩ : PatchOp) ∈ update_bug_data env bugId t ∧
    (∀ op ∈ update_bug_data env bugId t, op.path ≠ "/fields/Custom.SysAidID") ∧
    (∀ pid, t.parent_id = some pid →
      (parentRelOp pid ∈ update_bug_data env bugId t ↔
        already_linked env.linkResp bugId pid = false)) := by
  refine ⟨?_, ?_, ?_, ?_, ?_⟩
  · cases hp : t.parent_id <;> simp [update_bug_data, hp]
  · cases hp : t.parent_id <;> simp [update_bug_data, hp]
  · cases hp : t.parent_id <;> simp [update_bug_data, hp]
  · intro op hop
    cases hp : t.parent_id with
    | none =>
      simp [update_bug_data, hp] at hop
      rcases hop with h | h | h <;> subst h <;> simp
    | some p =>
      cases hal : already_linked env.linkResp bugId p with
      | true =>
        simp [update_bug_data, hp, hal] at hop
        rcases hop with h | h | h <;> subst h <;> simp
      | false =>
        simp [update_bug_data, hp, hal] at hop
        rcases hop with h | h | h | h <;> subst h <;> simp [parentRelOp]
  · intro pid hp
    cases hal : already_linked env.linkResp bugId pid with
    | false => simp [update_bug_data, hp, hal, parentRelOp]
    | true => simp [update_bug_data, hp, hal, parentRelOp]

/-- C3: for a ticket found remotely (`find_existing_bug` returned an id the
loop's truthiness guard accepts) with `update_time` strictly greater than the
remote last-modified time, the update operation is called exactly once, with a
payload containing title, description and the mapped priority but no
operation on the external-id field; when the ticket has a parent, the
parent-link operation is in the payload iff `already_linked` returned false,
and a failure of the `already_linked` check itself yields false (so the link
is attempted); when the update PATCH succeeds the outcome is Updated. -/
theorem C3_update_branch (env : Env) (t : Ticket) (bugId : Nat)
    (hbug : find_existing_bug env.findResp = some bugId) (hnz : bugId ≠ 0)
    (hgt : t.update_time.getD 0 > get_work_item_last_updated env.lastUpdResp) :
    (reconcile env t).2 = [MutationCall.update bugId (update_bug_data env bugId t)] ∧
    (⟨"add", "/fields/System.Title", .str t.title⟩ : PatchOp) ∈ update_bug_data env bugId t ∧
    (⟨"add", "/fields/System.Description", .str t.description⟩ : PatchOp) ∈
      update_bug_data env bugId t ∧
    (⟨"add", "/fields/Microsoft.VSTS.Common.Priority",
        .num (map_priority t.priority)⟩ : PatchOp) ∈ update_bug_data env bugId t ∧
    (∀ op ∈ update_bug_data env bugId t, op.path ≠ "/fields/Custom.SysAidID") ∧
    (∀ pid, t.parent_id = some pid →
      (parentRelOp pid ∈ update_bug_data env bugId t ↔
        already_linked env.linkResp bugId pid = false)) ∧
    (∀ e, env.linkResp = .error e → ∀ b p, already_linked env.linkResp b p = false) ∧
    (env.updateResp = .ok () → (reconcile env t).1 = Outcome.updated) := by
  obtain ⟨f1, f2, f3, f4, f5⟩ := update_bug_data_fields env bugId t
  refine ⟨reconcile_update_trace env t bugId hbug hnz hgt, f1, f2, f3, f4, f5, ?_, ?_⟩
  · intro e he b p
    rw [he]
    rfl
  · exact fun hok => reconcile_update_ok env t bugId hbug hnz hgt hok

/-- Witness for C3: bug 9 found, ticket newer (99 > 10), parent 7 already
linked, update PATCH succeeds: one update call whose payload has no
parent-link operation, outcome Updated. -/
theorem C3_witness :
    (reconcile envC3w ticketC3w).2 =
      [MutationCall.update 9 (update_bug_data envC3w 9 ticketC3w)] ∧
    (reconcile envC3w ticketC3w).1 = Outcome.updated ∧
    (parentRelOp 7 ∈ update_bug_data envC3w 9 ticketC3w ↔
      already_linked envC3w.linkResp 9 7 = false) :=
  ⟨(C3_update_branch envC3w ticketC3w 9 (by decide) (by decide) (by decide)).1,
   (C3_update_branch envC3w ticketC3w 9 (by decide) (by decide) (by decide)).2.2.2.2.2.2.2 rfl,
   (C3_update_branch envC3w ticketC3w 9 (by decide) (by decide) (by decide)).2.2.2.2.2.1 7 rfl⟩

/-! ## Claim C8 — run-loop isolation and summary -/

theorem runMain_foldl_counts (d : SensitiveDataDetector) :
    ∀ (items : List (Ticket × Env)) (s : Summary),
      items.foldl (runStep d) s =
        ⟨s.created + items.countP (fun it => (syncOutcome d it).isCreatedOutcome),
         s.updated + items.countP (fun it => (syncOutcome d it).isUpdatedOutcome),
         s.failed + items.countP (fun it => (syncOutcome d it).isFailedOutcome)⟩ := by
  intro items
  induction items with
  | nil =>
    intro s
    cases s
    simp [List.countP_nil]
  | cons it its ih =>
    intro s
    rw [List.foldl_cons, ih]
    cases ho : syncOutcome d it <;>
      simp [runStep, ho, List.countP_cons, Summary.mk.injEq, Outcome.isCreatedOutcome,
            Outcome.isUpdatedOutcome, Outcome.isFailedOutcome] <;>
      omega

/-- C8: the run loop is total over its batch — each ticket's processing
yields exactly one outcome, a failed ticket only increments the failed
counter, and processing continues with the next ticket — and the run-level
summary is always produced, equal to the per-outcome counts over the whole
batch; in particular, even when every ticket fails the summary is emitted
with all of them counted as failed. -/
theorem C8_run_loop_summary (d : SensitiveDataDetector) (items : List (Ticket × Env)) :
    runMain d items =
      ⟨items.countP (fun it => (syncOutcome d it).isCreatedOutcome),
       items.countP (fun it => (syncOutcome d it).isUpdatedOutcome),
       items.countP (fun it => (syncOutcome d it).isFailedOutcome)⟩ ∧
    ((∀ it ∈ items, syncOutcome d it = Outcome.failed) →
      runMain d items = ⟨0, 0, items.length⟩) := by
  have h1 : runMain d items =
      ⟨items.countP (fun it => (syncOutcome d it).isCreatedOutcome),
       items.countP (fun it => (syncOutcome d it).isUpdatedOutcome),
       items.countP (fun it => (syncOutcome d it).isFailedOutcome)⟩ := by
    unfold runMain
    rw [runMain_foldl_counts d items ⟨0, 0, 0⟩]
    simp
  refine ⟨h1, fun hall => ?_⟩
  rw [h1]
  have hc : items.countP (fun it => (syncOutcome d it).isCreatedOutcome) = 0 :=
    List.countP_eq_zero.mpr
      (fun it hit => by simp [hall it hit, Outcome.isCreatedOutcome])
  have hu : items.countP (fun it => (syncOutcome d it).isUpdatedOutcome) = 0 :=
    List.countP_eq_zero.mpr
      (fun it hit => by simp [hall it hit, Outcome.isUpdatedOutcome])
  have hf : items.countP (fun it => (syncOutcome d it).isFailedOutcome) = items.length :=
    List.countP_eq_length.mpr
      (fun it hit => by simp [hall it hit, Outcome.isFailedOutcome])
  rw [hc, hu, hf]

/-- Witness for C8: a batch whose only ticket fails (creation raises) still
produces the summary, with the failure counted. -/
theorem C8_witness : runMain failedDetector itemsC8w = ⟨0, 0, itemsC8w.length⟩ :=
  (C8_run_loop_summary failedDetector itemsC8w).2 (by decide)
